import Mathlib

/-!
Verification of the wind-analysis core of the drone-wind-whisperer
application.  The TypeScript sources are embedded shallowly: numbers
become real numbers, optional values become `Option`, JavaScript objects
become structures, and array combinators become the corresponding list
operations.  Each section names the source file it embeds.
-/

noncomputable section

/-! ## Wind calculation utilities (`src/utils/windCalculations.ts`) -/

/-- `MAX_SAFE_WIND = 11.0` (m/s), from `windCalculations.ts`. -/
def MAX_SAFE_WIND : ℝ := 11.0

/-- `MAX_SAFE_GUST = 12.0` (m/s), from `windCalculations.ts`. -/
def MAX_SAFE_GUST : ℝ := 12.0

/-- `estimateWindAtHeight` from `windCalculations.ts`:
`referenceSpeed * Math.pow(targetHeight / referenceHeight, alpha)`.
The body is a single return expression; the source performs no input
validation of any kind. -/
def estimateWindAtHeight (referenceSpeed referenceHeight targetHeight alpha : ℝ) : ℝ :=
  referenceSpeed * (targetHeight / referenceHeight) ^ alpha

/-- `isSafeForDrones` from `windCalculations.ts`.  The source returns
`false` when `windSpeed > MAX_SAFE_WIND`, `false` when a gust value is
present and `> MAX_SAFE_GUST`, and `true` otherwise; we render the
boolean as the conjunction of the negations of the two early-return
conditions. -/
def isSafeForDrones (windSpeed : ℝ) (gustSpeed : Option ℝ) : Prop :=
  ¬ (windSpeed > MAX_SAFE_WIND) ∧ ∀ g, gustSpeed = some g → ¬ (g > MAX_SAFE_GUST)

/-- Modelled from the spec (§4.1, §7, refinement target for the
error-handling claim): the spec requires `referenceHeight > 0` and
`targetHeight > 0`, a violation failing with an `InvalidInput` error
instead of producing a number. -/
def specEstimateWindAtHeight (referenceSpeed referenceHeight targetHeight alpha : ℝ) :
    Option ℝ :=
  if referenceHeight ≤ 0 ∨ targetHeight ≤ 0 then none
  else some (referenceSpeed * (targetHeight / referenceHeight) ^ alpha)

end

/-! ## Theorems about the vertical profile model -/

/-- C2 counterexample: at `targetHeight = 0 ≤ 0` the code returns the
numeric result `0` (no error channel exists in its body), while the
spec-modelled checked operation fails. -/
theorem estimateWindAtHeight_no_validation :
    estimateWindAtHeight 5 10 0 (1/7) = 0 ∧
      specEstimateWindAtHeight 5 10 0 (1/7) = none := by
  constructor
  · unfold estimateWindAtHeight
    rw [zero_div, Real.zero_rpow (by norm_num), mul_zero]
  · unfold specEstimateWindAtHeight
    rw [if_pos (Or.inr le_rfl)]

/-- C2 amended: `estimateWindAtHeight` performs no height validation;
in particular for `targetHeight = 0`, a nonzero reference height and a
nonzero exponent it returns the number `0` rather than failing. -/
theorem estimateWindAtHeight_total_at_zero_height
    (v h a : ℝ) (hh : h ≠ 0) (ha : a ≠ 0) :
    estimateWindAtHeight v h 0 a = 0 := by
  unfold estimateWindAtHeight
  rw [zero_div, Real.zero_rpow ha, mul_zero]

/-- Witness for the C2 amended theorem at `v = 5`, `h = 10`, `a = 1/7`. -/
theorem estimateWindAtHeight_total_at_zero_height_witness :
    (10:ℝ) ≠ 0 ∧ ((1:ℝ)/7) ≠ 0 ∧ estimateWindAtHeight 5 10 0 (1/7) = 0 :=
  ⟨by norm_num, by norm_num,
    estimateWindAtHeight_total_at_zero_height 5 10 (1/7) (by norm_num) (by norm_num)⟩

/-- C8: extrapolating from a height to the same height returns the
reference speed unchanged, for every `v ≥ 0`, `h > 0` and exponent. -/
theorem estimateWindAtHeight_same_height
    (v h a : ℝ) (hv : 0 ≤ v) (hh : 0 < h) :
    estimateWindAtHeight v h h a = v := by
  unfold estimateWindAtHeight
  rw [div_self (ne_of_gt hh), Real.one_rpow, mul_one]

/-- Witness for C8 at `v = 5`, `h = 10`, `a = 1/7`. -/
theorem estimateWindAtHeight_same_height_witness :
    (0:ℝ) ≤ 5 ∧ (0:ℝ) < 10 ∧ estimateWindAtHeight 5 10 10 (1/7) = 5 :=
  ⟨by norm_num, by norm_num,
    estimateWindAtHeight_same_height 5 10 (1/7) (by norm_num) (by norm_num)⟩

/-- The seventh root of `5` lies strictly between `1.256` and `1.26`. -/
lemma fifth_root_seven_bounds :
    (1.256 : ℝ) < (5:ℝ) ^ ((1:ℝ)/7) ∧ (5:ℝ) ^ ((1:ℝ)/7) < 1.26 := by
  have h7 : ((7:ℕ):ℝ) * ((1:ℝ)/7) = 1 := by norm_num
  constructor
  · have hlt : ((1.256:ℝ)) ^ ((7:ℕ):ℝ) < 5 := by
      rw [Real.rpow_natCast]; norm_num
    have := Real.rpow_lt_rpow (by positivity) hlt (z := (1:ℝ)/7) (by norm_num)
    rwa [← Real.rpow_mul (by norm_num), h7, Real.rpow_one] at this
  · have hlt : (5:ℝ) < ((1.26:ℝ)) ^ ((7:ℕ):ℝ) := by
      rw [Real.rpow_natCast]; norm_num
    have := Real.rpow_lt_rpow (by norm_num) hlt (z := (1:ℝ)/7) (by norm_num)
    rwa [← Real.rpow_mul (by norm_num), h7, Real.rpow_one] at this

/-- C9 counterexample: `extrapolate(5, 10, 50, 1/7)` is more than `0.09`
away from the claimed value `6.19`. -/
theorem extrapolate_scenarioA_not_619 :
    |estimateWindAtHeight 5 10 50 (1/7) - 6.19| > 0.09 := by
  have hb := fifth_root_seven_bounds
  have hval : estimateWindAtHeight 5 10 50 (1/7) = 5 * (5:ℝ) ^ ((1:ℝ)/7) := by
    unfold estimateWindAtHeight
    norm_num
  rw [hval, abs_of_pos (by nlinarith [hb.1])]
  nlinarith [hb.1]

/-- C9 amended: `extrapolate(5, 10, 50, 1/7) ≈ 6.29` (within `0.01`). -/
theorem extrapolate_scenarioA_value :
    |estimateWindAtHeight 5 10 50 (1/7) - 6.29| < 0.01 := by
  have hb := fifth_root_seven_bounds
  have hval : estimateWindAtHeight 5 10 50 (1/7) = 5 * (5:ℝ) ^ ((1:ℝ)/7) := by
    unfold estimateWindAtHeight
    norm_num
  rw [hval, abs_lt]
  constructor <;> nlinarith [hb.1, hb.2]

/-! ## Weather data model (`src/utils/weatherApi.ts`)

`WindData` carries a JavaScript `Date`.  A `Date` is modelled by the
accessors the embedded code actually reads: the local calendar fields
`getFullYear`, `getMonth`, `getDate`, `getHours` (used by the hour-bucket
key of the merge) and the epoch milliseconds `getTime` (used by the
`<=`/`>=` comparisons of the safety indicator). -/

structure DateVal where
  year : ℤ
  month : ℤ
  day : ℤ
  hour : ℤ
  ms : ℤ
deriving DecidableEq

/-- `WindData` from `weatherApi.ts`. -/
structure WindData where
  timestamp : DateVal
  windSpeed : ℝ
  windDirection : Option ℝ
  windGust : Option ℝ
  isDaytime : Bool

/-- `NWSObservation` from `weatherApi.ts` (the `properties` payload; the
`value` fields are nullable). The `timestamp` string has already been
parsed into a `Date` as the merge does with `new Date(...)`. -/
structure NWSObservation where
  timestamp : DateVal
  windSpeedValue : Option ℝ
  windDirectionValue : Option ℝ
  windGustValue : Option ℝ

/-- The hour-bucket key
`` `${getFullYear()}-${getMonth()}-${getDate()}-${getHours()}` `` built by
`mergeWindDataWithObservations`; the dash-separated string of the four
integers is modelled by the injectively equivalent tuple. -/
def hourKey (t : DateVal) : ℤ × ℤ × ℤ × ℤ :=
  (t.year, t.month, t.day, t.hour)

/-- A JavaScript `Map<string, number>` modelled by its lookup function
(`get` returning `undefined` as `none`). -/
def ObsMap : Type := (ℤ × ℤ × ℤ × ℤ) → Option ℝ

/-- `Map.prototype.set`: later insertions overwrite earlier ones. -/
def mapSet (m : ObsMap) (k : ℤ × ℤ × ℤ × ℤ) (v : ℝ) : ObsMap :=
  fun q => if q = k then some v else m q

/-- The observation map built by `mergeWindDataWithObservations`:
`observationData.forEach(obs => { if (obs.properties.windGust.value !== null)
observationMap.set(hourKey, value) })`. -/
def buildObservationMap (observationData : List NWSObservation) : ObsMap :=
  observationData.foldl
    (fun m obs =>
      match obs.windGustValue with
      | some v => mapSet m (hourKey obs.timestamp) v
      | none => m)
    (fun _ => none)

/-- `mergeWindDataWithObservations` from `weatherApi.ts`. -/
def mergeWindDataWithObservations
    (forecastData : List WindData) (observationData : List NWSObservation) :
    List WindData :=
  if observationData.length = 0 then forecastData
  else
    let observationMap := buildObservationMap observationData
    forecastData.map fun data =>
      match observationMap (hourKey data.timestamp) with
      | some g => { data with windGust := some g }
      | none => data

/-- `estimateWindGusts` from `weatherApi.ts`: fill `gust = speed * 1.4`
exactly where `windGust === undefined`. -/
def estimateWindGusts (windData : List WindData) : List WindData :=
  windData.map fun data =>
    match data.windGust with
    | none => { data with windGust := some (data.windSpeed * 1.4) }
    | some _ => data

/-! ## Theorems about the reconciliation pipeline -/

/-- Spec-side description for the implicit bucket-conflict claim: the
gust of the last observation, in observation-list order, that has a
non-null gust and falls in bucket `k`.  Null-gust observations are
discarded before the search. -/
def lastGustInBucket (observationData : List NWSObservation) (k : ℤ × ℤ × ℤ × ℤ) :
    Option ℝ :=
  (((observationData.filter fun o => o.windGustValue.isSome).reverse).find?
      fun o => decide (hourKey o.timestamp = k)).bind
    fun o => o.windGustValue

/-- Recursive restatement of `lastGustInBucket` used for the fold
induction; later list entries take precedence. -/
def lastGustAux : List NWSObservation → (ℤ × ℤ × ℤ × ℤ) → Option ℝ
  | [], _ => none
  | o :: rest, k =>
      (lastGustAux rest k).or
        (match o.windGustValue with
          | some v => if hourKey o.timestamp = k then some v else none
          | none => none)

lemma lastGustAux_eq_lastGustInBucket (obs : List NWSObservation) (k : ℤ × ℤ × ℤ × ℤ) :
    lastGustAux obs k = lastGustInBucket obs k := by
  induction obs with
  | nil => simp [lastGustAux, lastGustInBucket]
  | cons o rest ih =>
    cases hg : o.windGustValue with
    | none =>
      have hfil : (o :: rest).filter (fun o => o.windGustValue.isSome) =
          rest.filter (fun o => o.windGustValue.isSome) := by
        simp [List.filter_cons, hg]
      simp only [lastGustAux, lastGustInBucket, hfil, hg]
      rw [ih]
      simp [lastGustInBucket]
    | some v =>
      have hfil : (o :: rest).filter (fun o => o.windGustValue.isSome) =
          o :: rest.filter (fun o => o.windGustValue.isSome) := by
        simp [List.filter_cons, hg]
      simp only [lastGustAux, lastGustInBucket, hfil, List.reverse_cons,
        List.find?_append, hg]
      cases hfind : (rest.filter (fun o => o.windGustValue.isSome)).reverse.find?
          (fun o => decide (hourKey o.timestamp = k)) with
      | some o2 =>
        have ho2 : o2.windGustValue.isSome := by
          have hmem := List.mem_of_find?_eq_some hfind
          rw [List.mem_reverse] at hmem
          exact (List.mem_filter.mp hmem).2
        obtain ⟨w, hw⟩ := Option.isSome_iff_exists.mp ho2
        have hrest : lastGustInBucket rest k = some w := by
          simp [lastGustInBucket, hfind, hw]
        rw [ih, hrest]
        simp [Option.or, hw]
      | none =>
        have hrest : lastGustInBucket rest k = none := by
          simp [lastGustInBucket, hfind]
        rw [ih, hrest]
        by_cases hk : hourKey o.timestamp = k
        · simp [hk, List.find?, Option.or, hg]
        · simp [hk, List.find?, Option.or]

lemma buildObservationMap_foldl (obs : List NWSObservation) (m : ObsMap)
    (k : ℤ × ℤ × ℤ × ℤ) :
    (obs.foldl
        (fun m obs =>
          match obs.windGustValue with
          | some v => mapSet m (hourKey obs.timestamp) v
          | none => m)
        m) k = (lastGustAux obs k).or (m k) := by
  induction obs generalizing m with
  | nil => simp [lastGustAux, Option.or]
  | cons o rest ih =>
    simp only [List.foldl_cons, lastGustAux]
    rw [ih]
    cases hg : o.windGustValue with
    | none => simp [Option.or_assoc]
    | some v =>
      by_cases hk : hourKey o.timestamp = k
      · simp [hg, hk, mapSet, Option.or_assoc]
      · have : ¬ k = hourKey o.timestamp := fun h => hk h.symm
        simp [hg, hk, this, mapSet, Option.or_assoc]

lemma buildObservationMap_lookup (obs : List NWSObservation) (k : ℤ × ℤ × ℤ × ℤ) :
    buildObservationMap obs k = lastGustInBucket obs k := by
  rw [buildObservationMap, buildObservationMap_foldl, lastGustAux_eq_lastGustInBucket]
  cases lastGustInBucket obs k <;> simp [Option.or]

/-- C10: the merge rewrites every forecast sample whose hour bucket has a
matching non-null-gust observation with the gust of the *last* such
observation in observation-list order, and leaves every other sample
unchanged; null-gust observations never influence the output. -/
theorem merge_last_observation_wins
    (forecastData : List WindData) (observationData : List NWSObservation) :
    mergeWindDataWithObservations forecastData observationData =
      forecastData.map fun d =>
        match lastGustInBucket observationData (hourKey d.timestamp) with
        | some g => { d with windGust := some g }
        | none => d := by
  unfold mergeWindDataWithObservations
  by_cases h : observationData.length = 0
  · rw [List.length_eq_zero] at h
    subst h
    simp [lastGustInBucket]
  · rw [if_neg (by simpa using h)]
    exact List.map_congr_left fun d _ => by rw [buildObservationMap_lookup]

/-- C5: the merge is idempotent; re-running it on its own output with the
same observation list reproduces that output exactly. -/
theorem merge_idempotent
    (forecastData : List WindData) (observationData : List NWSObservation) :
    mergeWindDataWithObservations
        (mergeWindDataWithObservations forecastData observationData) observationData =
      mergeWindDataWithObservations forecastData observationData := by
  unfold mergeWindDataWithObservations
  by_cases h : observationData.length = 0
  · simp [h]
  · rw [if_neg h, if_neg h, List.map_map]
    refine List.map_congr_left fun d _ => ?_
    simp only [Function.comp_apply]
    cases hm : buildObservationMap observationData (hourKey d.timestamp) with
    | none => simp [hm]
    | some v =>
      have ht : hourKey ({ d with windGust := some v } : WindData).timestamp =
          hourKey d.timestamp := rfl
      simp [hm, ht]

/-- C4: `estimateWindGusts` preserves length and order; a sample lacking
a gust receives exactly `gust = speed * 1.4` with all other fields
unchanged, a sample that already has a gust is returned unchanged, and
in particular no existing gust value is ever decreased. -/
theorem estimateWindGusts_spec (windData : List WindData) :
    (estimateWindGusts windData).length = windData.length ∧
    ∀ i (h1 : i < windData.length) (h2 : i < (estimateWindGusts windData).length),
      ((windData.get ⟨i, h1⟩).windGust = none →
        (estimateWindGusts windData).get ⟨i, h2⟩ =
          { windData.get ⟨i, h1⟩ with
              windGust := some ((windData.get ⟨i, h1⟩).windSpeed * 1.4) }) ∧
      (∀ g, (windData.get ⟨i, h1⟩).windGust = some g →
        (estimateWindGusts windData).get ⟨i, h2⟩ = windData.get ⟨i, h1⟩ ∧
        ∃ g2, ((estimateWindGusts windData).get ⟨i, h2⟩).windGust = some g2 ∧ g ≤ g2) := by
  refine ⟨by simp [estimateWindGusts], fun i h1 h2 => ?_⟩
  have hget : (estimateWindGusts windData).get ⟨i, h2⟩ =
      match (windData.get ⟨i, h1⟩).windGust with
      | none =>
          { windData.get ⟨i, h1⟩ with
              windGust := some ((windData.get ⟨i, h1⟩).windSpeed * 1.4) }
      | some _ => windData.get ⟨i, h1⟩ := by
    simp [estimateWindGusts, List.get_eq_getElem, List.getElem_map]
  constructor
  · intro hnone
    rw [hget, hnone]
  · intro g hg
    rw [hget, hg]
    exact ⟨rfl, g, hg, le_refl g⟩

/-- Sample input used by the C4 witness. -/
def sampleNoGust : WindData :=
  { timestamp := ⟨2024, 2, 1, 14, 1709301600000⟩
    windSpeed := 5
    windDirection := some 200
    windGust := none
    isDaytime := true }

/-- Witness for C4 on the one-element series `[sampleNoGust]`. -/
theorem estimateWindGusts_spec_witness :
    (0:ℕ) < [sampleNoGust].length ∧
    (estimateWindGusts [sampleNoGust]).get ⟨0, by simp [estimateWindGusts]⟩ =
      { sampleNoGust with windGust := some (sampleNoGust.windSpeed * 1.4) } :=
  ⟨by norm_num,
    ((estimateWindGusts_spec [sampleNoGust]).2 0 (by norm_num)
        (by simp [estimateWindGusts])).1 rfl⟩

/-! ## Safety indicator (`src/components/SafetyIndicator.tsx`)

The component receives `windData` and computes its verdicts from the
prop alone; `now` (the clock read at render time) and the analysis
heights (the `ANALYSIS_HEIGHTS` constant, imported from a module outside
the embedded sources) are passed as parameters. -/

/-- The `nextTwoHours` filter: samples with
`now <= timestamp <= now + 2*60*60*1000` (JavaScript `Date` comparisons
compare epoch milliseconds). -/
def nextTwoHours (windData : List WindData) (now : DateVal) : List WindData :=
  windData.filter fun d =>
    decide (now.ms ≤ d.timestamp.ms ∧ d.timestamp.ms ≤ now.ms + 2 * 60 * 60 * 1000)

/-- `relevantData`: the window subset, or `windData.slice(0, 2)` when the
window subset is empty. -/
def relevantData (windData : List WindData) (now : DateVal) : List WindData :=
  if 0 < (nextTwoHours windData now).length then nextTwoHours windData now
  else windData.take 2

noncomputable section

/-- The per-sample projected speed used by the component:
`height === 10 ? data.windSpeed : estimateWindAtHeight(data.windSpeed, 10, height)`
(the call leaves `alpha` at its default `1/7`). -/
def windAtHeight (height : ℝ) (d : WindData) : ℝ :=
  if height = 10 then d.windSpeed
  else estimateWindAtHeight d.windSpeed 10 height (1/7)

end

/-- The per-height verdict `isSafeAtHeight`:
`relevantData.every(data => isSafeForDrones(windAtHeight, data.windGust))`. -/
def isSafeAtHeight (windData : List WindData) (now : DateVal) (height : ℝ) : Prop :=
  ∀ d ∈ relevantData windData now, isSafeForDrones (windAtHeight height d) d.windGust

/-- `safetyByHeight`: the list of `(height, isSafe)` pairs. -/
def safetyByHeight (windData : List WindData) (now : DateVal) (heights : List ℝ) :
    List (ℝ × Prop) :=
  heights.map fun height => (height, isSafeAtHeight windData now height)

/-- `isOverallSafe`: `safetyByHeight.every(s => s.isSafe)`. -/
def isOverallSafe (windData : List WindData) (now : DateVal) (heights : List ℝ) : Prop :=
  ∀ p ∈ safetyByHeight windData now heights, p.2

/-- Spec-side safety predicate from the claim:
`isSafe(speed, gust) = speed ≤ 11.0 AND (gust absent OR gust ≤ 12.0)`. -/
def specIsSafe (speed : ℝ) (gust : Option ℝ) : Prop :=
  speed ≤ 11.0 ∧ (gust = none ∨ ∃ g, gust = some g ∧ g ≤ 12.0)

/-- Spec-side per-height verdict from the claim: every selected sample,
its steady speed projected to the height by the vertical profile model
and its gust unprojected, satisfies `specIsSafe`. -/
def specSafeAtHeight (windData : List WindData) (now : DateVal) (height : ℝ) : Prop :=
  ∀ d ∈ relevantData windData now,
    specIsSafe (estimateWindAtHeight d.windSpeed 10 height (1/7)) d.windGust

lemma windAtHeight_eq_estimate (height : ℝ) (d : WindData) :
    windAtHeight height d = estimateWindAtHeight d.windSpeed 10 height (1/7) := by
  unfold windAtHeight
  split_ifs with h
  · subst h
    unfold estimateWindAtHeight
    norm_num
  · rfl

lemma isSafeForDrones_iff_specIsSafe (speed : ℝ) (gust : Option ℝ) :
    isSafeForDrones speed gust ↔ specIsSafe speed gust := by
  unfold isSafeForDrones specIsSafe MAX_SAFE_WIND MAX_SAFE_GUST
  constructor
  · rintro ⟨h1, h2⟩
    refine ⟨not_lt.mp h1, ?_⟩
    cases hg : gust with
    | none => exact Or.inl rfl
    | some g => exact Or.inr ⟨g, rfl, not_lt.mp (h2 g hg)⟩
  · rintro ⟨h1, h2⟩
    refine ⟨not_lt.mpr h1, fun g hg => ?_⟩
    rcases h2 with h2 | ⟨g2, hg2, hle⟩
    · rw [hg] at h2; cases h2
    · rw [hg] at hg2
      cases Option.some.inj hg2
      exact not_lt.mpr hle

/-- C1: for every sample list, clock reading, height list and height, the
per-height verdict holds exactly when every selected sample — steady
speed projected to the height by the vertical profile model, gust taken
unprojected — satisfies `speed ≤ 11.0 AND (gust absent OR gust ≤ 12.0)`;
and the overall verdict holds exactly when every height's per-height
verdict holds.  Selected samples are the window subset, or the first two
samples when that subset is empty. -/
theorem safetyIndicator_verdicts
    (windData : List WindData) (now : DateVal) (heights : List ℝ) (height : ℝ) :
    (isSafeAtHeight windData now height ↔ specSafeAtHeight windData now height) ∧
      (isOverallSafe windData now heights ↔
        ∀ h ∈ heights, specSafeAtHeight windData now h) := by
  have hpt : ∀ h2 : ℝ, isSafeAtHeight windData now h2 ↔ specSafeAtHeight windData now h2 := by
    intro h2
    unfold isSafeAtHeight specSafeAtHeight
    refine forall_congr' fun d => forall_congr' fun hd => ?_
    rw [windAtHeight_eq_estimate, isSafeForDrones_iff_specIsSafe]
  refine ⟨hpt height, ?_⟩
  unfold isOverallSafe safetyByHeight
  constructor
  · intro hall h hmem
    exact (hpt h).mp (hall (h, isSafeAtHeight windData now h) (List.mem_map_of_mem _ hmem))
  · intro hall p hp
    obtain ⟨h, hmem, rfl⟩ := List.mem_map.mp hp
    exact (hpt h).mpr (hall h hmem)

/-! ## Wind particles canvas (`src/components/WindParticlesCanvas.tsx`)

The renderer-facing pieces (canvas, projection, stroke drawing) are
outside the embedded core; `sampleVector` and the per-particle body of
`step` are embedded.  `Math.random()` draws are passed in as explicit
uniform samples, and `p.windDirection || 0` is the identity on real
numbers (`0 || 0 === 0`), so the direction field is used directly. -/

/-- `CurrentWindPoint` from `weatherApi.ts`. -/
structure CurrentWindPoint where
  latitude : ℝ
  longitude : ℝ
  windSpeed : ℝ
  windDirection : ℝ

/-- The record `{ east, north, speed }` returned by `sampleVector`. -/
structure WindVec where
  east : ℝ
  north : ℝ
  speed : ℝ

noncomputable section

/-- The `distances` array of `sampleVector`:
`Math.hypot(dLat, dLng) + 1e-6` paired with its point. -/
def distancesOf (points : List CurrentWindPoint) (lng lat : ℝ) :
    List (CurrentWindPoint × ℝ) :=
  points.map fun p =>
    (p, Real.sqrt ((p.latitude - lat) ^ 2 + (p.longitude - lng) ^ 2) + 1e-6)

/-- `distances.sort((a, b) => a.dist - b.dist).slice(0, 4)`: the up-to-4
nearest points (JavaScript sort is stable, as is `mergeSort`). -/
def neighborsOf (points : List CurrentWindPoint) (lng lat : ℝ) :
    List (CurrentWindPoint × ℝ) :=
  ((distancesOf points lng lat).mergeSort fun a b => decide (a.2 ≤ b.2)).take 4

/-- One iteration of the `neighbors.forEach` accumulation: the
accumulator is `(east, north, speed, sumW)`. -/
def accStep (height : ℝ) (acc : ℝ × ℝ × ℝ × ℝ) (pd : CurrentWindPoint × ℝ) :
    ℝ × ℝ × ℝ × ℝ :=
  let w := 1 / (pd.2 * pd.2)
  let s := estimateWindAtHeight pd.1.windSpeed 10 height (1/7)
  let dirRad := pd.1.windDirection * Real.pi / 180
  (acc.1 + Real.sin dirRad * s * w,
    acc.2.1 + Real.cos dirRad * s * w,
    acc.2.2.1 + s * w,
    acc.2.2.2 + w)

/-- `sampleVector` from `WindParticlesCanvas.tsx`. -/
def sampleVector (points : List CurrentWindPoint) (lng lat height : ℝ) : WindVec :=
  if points.length = 0 then ⟨0, 0, 0⟩
  else
    let acc := (neighborsOf points lng lat).foldl (accStep height) (0, 0, 0, 0)
    if acc.2.2.2 = 0 then ⟨0, 0, 0⟩
    else ⟨acc.1 / acc.2.2.2, acc.2.1 / acc.2.2.2, acc.2.2.1 / acc.2.2.2⟩

/-- The `sumW` accumulated by `sampleVector` (the fourth component of the
fold), named so the zero-weight fallback can be stated. -/
def sumWeights (points : List CurrentWindPoint) (lng lat height : ℝ) : ℝ :=
  ((neighborsOf points lng lat).foldl (accStep height) (0, 0, 0, 0)).2.2.2

/-- Per-neighbor contribution to the accumulated `east`. -/
def eastTerm (height : ℝ) (pd : CurrentWindPoint × ℝ) : ℝ :=
  Real.sin (pd.1.windDirection * Real.pi / 180) *
    estimateWindAtHeight pd.1.windSpeed 10 height (1/7) * (1 / (pd.2 * pd.2))

/-- Per-neighbor contribution to the accumulated `north`. -/
def northTerm (height : ℝ) (pd : CurrentWindPoint × ℝ) : ℝ :=
  Real.cos (pd.1.windDirection * Real.pi / 180) *
    estimateWindAtHeight pd.1.windSpeed 10 height (1/7) * (1 / (pd.2 * pd.2))

/-- Per-neighbor contribution to the accumulated `speed`. -/
def speedTerm (height : ℝ) (pd : CurrentWindPoint × ℝ) : ℝ :=
  estimateWindAtHeight pd.1.windSpeed 10 height (1/7) * (1 / (pd.2 * pd.2))

/-- Per-neighbor contribution to the accumulated `sumW`. -/
def wTerm (pd : CurrentWindPoint × ℝ) : ℝ := 1 / (pd.2 * pd.2)

end

lemma foldl_accStep (height : ℝ) (l : List (CurrentWindPoint × ℝ)) (a : ℝ × ℝ × ℝ × ℝ) :
    l.foldl (accStep height) a =
      (a.1 + (l.map (eastTerm height)).sum,
        a.2.1 + (l.map (northTerm height)).sum,
        a.2.2.1 + (l.map (speedTerm height)).sum,
        a.2.2.2 + (l.map wTerm).sum) := by
  induction l generalizing a with
  | nil => simp
  | cons pd t ih =>
    simp only [List.foldl_cons, List.map_cons, List.sum_cons]
    rw [ih]
    simp only [accStep, eastTerm, northTerm, speedTerm, wTerm, Prod.mk.injEq]
    refine ⟨by ring, by ring, by ring, by ring⟩

/-! ## Theorems about the spatial interpolator -/

/-- C7: interpolating an empty sample set returns the zero vector, and
whenever the accumulated sum of inverse-distance weights is zero the
interpolator also returns the zero vector instead of dividing by zero
(both are ordinary return paths of the total function, not errors). -/
theorem sampleVector_zero_fallbacks :
    (∀ lng lat height : ℝ, sampleVector [] lng lat height = ⟨0, 0, 0⟩) ∧
      (∀ (points : List CurrentWindPoint) (lng lat height : ℝ),
        sumWeights points lng lat height = 0 →
        sampleVector points lng lat height = ⟨0, 0, 0⟩) := by
  constructor
  · intro lng lat height
    simp [sampleVector]
  · intro points lng lat height hW
    unfold sampleVector
    by_cases hp : points.length = 0
    · rw [if_pos hp]
    · rw [if_neg hp]
      unfold sumWeights at hW
      simp only [hW]
      exact if_pos trivial

/-- Witness for C7: on the empty sample set the accumulated weight sum is
zero and the interpolator returns the zero vector. -/
theorem sampleVector_zero_fallbacks_witness :
    sumWeights [] 0 0 10 = 0 ∧ sampleVector [] 0 0 10 = ⟨0, 0, 0⟩ :=
  ⟨by simp [sumWeights, neighborsOf, distancesOf],
    sampleVector_zero_fallbacks.2 [] 0 0 10
      (by simp [sumWeights, neighborsOf, distancesOf])⟩

/-- Sample 0.1 degrees north of the origin, 5 m/s blowing from the north. -/
noncomputable def northPointSample : CurrentWindPoint :=
  { latitude := 1/10, longitude := 0, windSpeed := 5, windDirection := 0 }

/-- Sample 0.1 degrees south of the origin, 5 m/s blowing from the south. -/
noncomputable def southPointSample : CurrentWindPoint :=
  { latitude := -(1/10), longitude := 0, windSpeed := 5, windDirection := 180 }

lemma estimate_five_at_ten : estimateWindAtHeight 5 10 10 (1/7) = 5 := by
  unfold estimateWindAtHeight
  rw [show (10:ℝ)/10 = 1 by norm_num, Real.one_rpow, mul_one]

lemma distancesOf_two_points :
    distancesOf [northPointSample, southPointSample] 0 0 =
      [(northPointSample, 1/10 + 1e-6), (southPointSample, 1/10 + 1e-6)] := by
  unfold distancesOf
  simp only [List.map_cons, List.map_nil, northPointSample, southPointSample]
  rw [show ((1:ℝ)/10 - 0)^2 + ((0:ℝ) - 0)^2 = (1/10)^2 by ring,
    show (-((1:ℝ)/10) - 0)^2 + ((0:ℝ) - 0)^2 = (1/10)^2 by ring,
    Real.sqrt_sq (by norm_num)]

lemma neighborsOf_two_points :
    (neighborsOf [northPointSample, southPointSample] 0 0).Perm
      [(northPointSample, 1/10 + 1e-6), (southPointSample, 1/10 + 1e-6)] := by
  unfold neighborsOf
  rw [distancesOf_two_points,
    List.take_of_length_le (by rw [List.length_mergeSort]; norm_num)]
  exact List.mergeSort_perm _ _

lemma sampleVector_two_points :
    sampleVector [northPointSample, southPointSample] 0 0 10 = ⟨0, 0, 5⟩ := by
  have hperm := neighborsOf_two_points
  have hw : (0:ℝ) < 1 / ((1/10 + 1e-6) * (1/10 + 1e-6)) := by positivity
  have hE : ((neighborsOf [northPointSample, southPointSample] 0 0).map
      (eastTerm 10)).sum = 0 := by
    rw [(hperm.map (eastTerm 10)).sum_eq]
    simp only [List.map_cons, List.map_nil, List.sum_cons, List.sum_nil, eastTerm,
      northPointSample, southPointSample]
    rw [show (180:ℝ) * Real.pi / 180 = Real.pi by ring]
    simp [Real.sin_pi]
  have hN : ((neighborsOf [northPointSample, southPointSample] 0 0).map
      (northTerm 10)).sum = 0 := by
    rw [(hperm.map (northTerm 10)).sum_eq]
    simp only [List.map_cons, List.map_nil, List.sum_cons, List.sum_nil, northTerm,
      northPointSample, southPointSample]
    rw [show (180:ℝ) * Real.pi / 180 = Real.pi by ring]
    simp [Real.cos_pi]
  have hS : ((neighborsOf [northPointSample, southPointSample] 0 0).map
      (speedTerm 10)).sum = 10 * (1 / ((1/10 + 1e-6) * (1/10 + 1e-6))) := by
    rw [(hperm.map (speedTerm 10)).sum_eq]
    simp only [List.map_cons, List.map_nil, List.sum_cons, List.sum_nil, speedTerm,
      northPointSample, southPointSample]
    rw [estimate_five_at_ten]
    ring
  have hW : ((neighborsOf [northPointSample, southPointSample] 0 0).map wTerm).sum =
      2 * (1 / ((1/10 + 1e-6) * (1/10 + 1e-6))) := by
    rw [(hperm.map wTerm).sum_eq]
    simp only [List.map_cons, List.map_nil, List.sum_cons, List.sum_nil, wTerm]
    ring
  unfold sampleVector
  rw [if_neg (by norm_num), foldl_accStep]
  simp only [hE, hN, hS, hW, zero_add]
  rw [if_neg (by positivity)]
  simp only [WindVec.mk.injEq]
  refine ⟨zero_div _, zero_div _, ?_⟩
  rw [div_eq_iff (by positivity)]
  ring

/-- C3 counterexample: for two equidistant samples with equal speeds and
opposite directions the interpolated components cancel, the stored
magnitude is the weighted average `5`, and `hypot(east, north) = 0 ≠ 5`. -/
theorem sampleVector_magnitude_not_hypot :
    (sampleVector [northPointSample, southPointSample] 0 0 10).speed ≠
      Real.sqrt ((sampleVector [northPointSample, southPointSample] 0 0 10).east ^ 2 +
        (sampleVector [northPointSample, southPointSample] 0 0 10).north ^ 2) := by
  rw [sampleVector_two_points]
  simp

lemma sqrt_pair_triangle (a b c d : ℝ) :
    Real.sqrt ((a + c) ^ 2 + (b + d) ^ 2) ≤
      Real.sqrt (a ^ 2 + b ^ 2) + Real.sqrt (c ^ 2 + d ^ 2) := by
  have h := Complex.abs.add_le ⟨a, b⟩ ⟨c, d⟩
  simp only [Complex.abs_apply, Complex.normSq_mk, Complex.add_re, Complex.add_im] at h
  calc Real.sqrt ((a + c) ^ 2 + (b + d) ^ 2)
      = Real.sqrt ((⟨a, b⟩ + ⟨c, d⟩ : ℂ).re * (⟨a, b⟩ + ⟨c, d⟩ : ℂ).re +
          (⟨a, b⟩ + ⟨c, d⟩ : ℂ).im * (⟨a, b⟩ + ⟨c, d⟩ : ℂ).im) := by
        simp only [Complex.add_re, Complex.add_im]
        ring_nf
    _ ≤ _ := by
        simp only [Complex.add_re, Complex.add_im] at *
        convert h using 2 <;> ring

lemma sqrt_term_sq (h : ℝ) (pd : CurrentWindPoint × ℝ) (hnn : 0 ≤ speedTerm h pd) :
    Real.sqrt ((eastTerm h pd) ^ 2 + (northTerm h pd) ^ 2) = speedTerm h pd := by
  unfold eastTerm northTerm speedTerm at *
  rw [show (Real.sin (pd.1.windDirection * Real.pi / 180) *
        estimateWindAtHeight pd.1.windSpeed 10 h (1/7) * (1 / (pd.2 * pd.2))) ^ 2 +
        (Real.cos (pd.1.windDirection * Real.pi / 180) *
        estimateWindAtHeight pd.1.windSpeed 10 h (1/7) * (1 / (pd.2 * pd.2))) ^ 2 =
        (estimateWindAtHeight pd.1.windSpeed 10 h (1/7) * (1 / (pd.2 * pd.2))) ^ 2 *
        ((Real.sin (pd.1.windDirection * Real.pi / 180)) ^ 2 +
          (Real.cos (pd.1.windDirection * Real.pi / 180)) ^ 2) by ring,
    Real.sin_sq_add_cos_sq, mul_one, Real.sqrt_sq hnn]

lemma sqrt_sum_le_speed_sum (h : ℝ) (l : List (CurrentWindPoint × ℝ))
    (hnn : ∀ pd ∈ l, 0 ≤ speedTerm h pd) :
    Real.sqrt (((l.map (eastTerm h)).sum) ^ 2 + ((l.map (northTerm h)).sum) ^ 2) ≤
      (l.map (speedTerm h)).sum := by
  induction l with
  | nil => simp
  | cons pd t ih =>
    simp only [List.map_cons, List.sum_cons]
    have h1 := sqrt_term_sq h pd (hnn pd (by simp))
    have h2 := ih fun x hx => hnn x (List.mem_cons_of_mem _ hx)
    calc Real.sqrt ((eastTerm h pd + (t.map (eastTerm h)).sum) ^ 2 +
          (northTerm h pd + (t.map (northTerm h)).sum) ^ 2)
        ≤ Real.sqrt ((eastTerm h pd) ^ 2 + (northTerm h pd) ^ 2) +
          Real.sqrt (((t.map (eastTerm h)).sum) ^ 2 + ((t.map (northTerm h)).sum) ^ 2) :=
          sqrt_pair_triangle _ _ _ _
      _ ≤ speedTerm h pd + (t.map (speedTerm h)).sum := by
          rw [h1]
          exact add_le_add_left h2 _

lemma mem_neighborsOf (points : List CurrentWindPoint) (lng lat : ℝ)
    (pd : CurrentWindPoint × ℝ) (hmem : pd ∈ neighborsOf points lng lat) :
    pd.1 ∈ points := by
  unfold neighborsOf at hmem
  have h2 := (List.mergeSort_perm _ _).mem_iff.mp (List.mem_of_mem_take hmem)
  unfold distancesOf at h2
  obtain ⟨p, hp, hpd⟩ := List.mem_map.mp h2
  subst hpd
  exact hp

lemma speedTerm_nonneg (h : ℝ) (hh : 0 ≤ h) (pd : CurrentWindPoint × ℝ)
    (hs : 0 ≤ pd.1.windSpeed) : 0 ≤ speedTerm h pd := by
  unfold speedTerm estimateWindAtHeight
  have h1 : (0:ℝ) ≤ (h / 10) ^ ((1:ℝ)/7) := Real.rpow_nonneg (by positivity) _
  exact mul_nonneg (mul_nonneg hs h1) (one_div_nonneg.mpr (mul_self_nonneg _))

/-- C3 amended: the `speed` field of the interpolated vector is the
inverse-distance-weighted average of the projected neighbor speeds; for
nonnegative sample speeds and a nonnegative target height it dominates
`hypot(east, north)` but does not equal it in general. -/
theorem sampleVector_magnitude_weighted_average
    (points : List CurrentWindPoint) (lng lat height : ℝ)
    (hspeed : ∀ p ∈ points, 0 ≤ p.windSpeed) (hheight : 0 ≤ height) :
    Real.sqrt ((sampleVector points lng lat height).east ^ 2 +
        (sampleVector points lng lat height).north ^ 2) ≤
      (sampleVector points lng lat height).speed := by
  unfold sampleVector
  by_cases hp : points.length = 0
  · rw [if_pos hp]
    simp
  · rw [if_neg hp, foldl_accStep]
    simp only [zero_add]
    by_cases hW : ((neighborsOf points lng lat).map wTerm).sum = 0
    · rw [if_pos hW]
      simp
    · rw [if_neg hW]
      have hWnn : 0 ≤ ((neighborsOf points lng lat).map wTerm).sum := by
        refine List.sum_nonneg fun x hx => ?_
        obtain ⟨pd, _, rfl⟩ := List.mem_map.mp hx
        exact one_div_nonneg.mpr (mul_self_nonneg _)
      have hWpos : 0 < ((neighborsOf points lng lat).map wTerm).sum :=
        lt_of_le_of_ne hWnn (Ne.symm hW)
      have hkey := sqrt_sum_le_speed_sum height (neighborsOf points lng lat)
        fun pd hpd =>
          speedTerm_nonneg height hheight pd (hspeed pd.1 (mem_neighborsOf _ _ _ pd hpd))
      dsimp only
      calc Real.sqrt
            ((((neighborsOf points lng lat).map (eastTerm height)).sum /
                ((neighborsOf points lng lat).map wTerm).sum) ^ 2 +
              (((neighborsOf points lng lat).map (northTerm height)).sum /
                ((neighborsOf points lng lat).map wTerm).sum) ^ 2)
          = Real.sqrt
              ((((neighborsOf points lng lat).map (eastTerm height)).sum ^ 2 +
                ((neighborsOf points lng lat).map (northTerm height)).sum ^ 2) /
                (((neighborsOf points lng lat).map wTerm).sum) ^ 2) := by
            rw [div_pow, div_pow, div_add_div_same]
        _ = Real.sqrt
              (((neighborsOf points lng lat).map (eastTerm height)).sum ^ 2 +
                ((neighborsOf points lng lat).map (northTerm height)).sum ^ 2) /
              ((neighborsOf points lng lat).map wTerm).sum := by
            rw [Real.sqrt_div (by positivity), Real.sqrt_sq hWnn]
        _ ≤ (((neighborsOf points lng lat).map (speedTerm height)).sum) /
              ((neighborsOf points lng lat).map wTerm).sum :=
            (div_le_div_iff_of_pos_right hWpos).mpr hkey

/-- Witness for the C3 amended theorem on a single northward sample. -/
theorem sampleVector_magnitude_weighted_average_witness :
    (∀ p ∈ [northPointSample], (0:ℝ) ≤ p.windSpeed) ∧ (0:ℝ) ≤ 10 ∧
      Real.sqrt ((sampleVector [northPointSample] 0 0 10).east ^ 2 +
          (sampleVector [northPointSample] 0 0 10).north ^ 2) ≤
        (sampleVector [northPointSample] 0 0 10).speed :=
  ⟨by
    intro p hp
    rw [List.mem_singleton] at hp
    subst hp
    norm_num [northPointSample],
    by norm_num,
    sampleVector_magnitude_weighted_average [northPointSample] 0 0 10
      (by
        intro p hp
        rw [List.mem_singleton] at hp
        subst hp
        norm_num [northPointSample])
      (by norm_num)⟩

/-! ## Particle advection (`WindParticlesCanvas.tsx`, `step`)

The per-particle body of `step` (bounds check, field sampling, angular
displacement, ageing, respawn).  Drawing is rendering-only and omitted;
the two `Math.random()` draws of a respawn are the parameters `r1`, `r2`. -/

/-- The `Particle` interface: `{ lng, lat, age }`. -/
structure Particle where
  lng : ℝ
  lat : ℝ
  age : ℕ

/-- The viewport bounding box `(getWest, getSouth, getEast, getNorth)`. -/
structure MapBounds where
  west : ℝ
  south : ℝ
  east : ℝ
  north : ℝ

/-- The out-of-bounds test at the top of the per-particle loop body. -/
def particleOut (b : MapBounds) (pt : Particle) : Prop :=
  pt.lng < b.west ∨ pt.lng > b.east ∨ pt.lat < b.south ∨ pt.lat > b.north

noncomputable instance (b : MapBounds) (pt : Particle) : Decidable (particleOut b pt) := by
  unfold particleOut
  exact inferInstance

/-- The respawn assignment: uniform position inside the bounds (`r1`,
`r2` are the two uniform `[0,1)` samples) and `age = 0`. -/
def respawnParticle (b : MapBounds) (r1 r2 : ℝ) : Particle :=
  { lng := b.west + r1 * (b.east - b.west)
    lat := b.south + r2 * (b.north - b.south)
    age := 0 }

/-- `clamp` from `WindParticlesCanvas.tsx`:
`Math.max(min, Math.min(max, v))`. -/
noncomputable def clamp (v mn mx : ℝ) : ℝ := max mn (min mx v)

/-- The per-particle body of `step`: respawn if out of bounds, otherwise
sample the field, convert m/s to degrees with the local
meters-per-degree factors and the zoom-clamped time step, advance,
age, and respawn on expiry (`age > 100`). -/
noncomputable def stepParticle (bounds : MapBounds) (zoom : ℝ)
    (points : List CurrentWindPoint) (height r1 r2 : ℝ) (pt : Particle) : Particle :=
  if particleOut bounds pt then respawnParticle bounds r1 r2
  else
    let v := sampleVector points pt.lng pt.lat height
    let latRad := pt.lat * Real.pi / 180
    let meterPerDegLat : ℝ := 111320
    let meterPerDegLng := meterPerDegLat * Real.cos latRad
    let dt := clamp (0.6 + (zoom - 8) * 0.08) 0.3 1.2
    let dLat := v.north * dt / meterPerDegLat
    let dLng := v.east * dt / meterPerDegLng
    let pt2 : Particle := ⟨pt.lng + dLng, pt.lat + dLat, pt.age + 1⟩
    if pt2.age > 100 then respawnParticle bounds r1 r2 else pt2

/-- C6 amended: a particle found out of bounds at the start of a tick is
respawned inside the (closed) viewport bounds with its age reset to 0;
a particle advected across the boundary during the tick, however, stays
out of bounds until the next tick examines it (see the counterexample). -/
theorem stepParticle_respawns_out_of_bounds
    (bounds : MapBounds) (zoom : ℝ) (points : List CurrentWindPoint)
    (height r1 r2 : ℝ) (pt : Particle)
    (hwe : bounds.west ≤ bounds.east) (hsn : bounds.south ≤ bounds.north)
    (hr1 : 0 ≤ r1) (hr1b : r1 ≤ 1) (hr2 : 0 ≤ r2) (hr2b : r2 ≤ 1)
    (hout : particleOut bounds pt) :
    bounds.west ≤ (stepParticle bounds zoom points height r1 r2 pt).lng ∧
    (stepParticle bounds zoom points height r1 r2 pt).lng ≤ bounds.east ∧
    bounds.south ≤ (stepParticle bounds zoom points height r1 r2 pt).lat ∧
    (stepParticle bounds zoom points height r1 r2 pt).lat ≤ bounds.north ∧
    (stepParticle bounds zoom points height r1 r2 pt).age = 0 := by
  unfold stepParticle
  rw [if_pos hout]
  unfold respawnParticle
  dsimp only
  refine ⟨by nlinarith, by nlinarith, by nlinarith, by nlinarith, rfl⟩

/-- Witness for the C6 amended theorem: a particle east of the unit
viewport is respawned at its center. -/
theorem stepParticle_respawns_out_of_bounds_witness :
    particleOut ⟨0, 0, 1, 1⟩ ⟨2, 1/2, 7⟩ ∧
      (0:ℝ) ≤ (stepParticle ⟨0, 0, 1, 1⟩ 8 [] 10 (1/2) (1/2) ⟨2, 1/2, 7⟩).lng ∧
      (stepParticle ⟨0, 0, 1, 1⟩ 8 [] 10 (1/2) (1/2) ⟨2, 1/2, 7⟩).lng ≤ 1 ∧
      (0:ℝ) ≤ (stepParticle ⟨0, 0, 1, 1⟩ 8 [] 10 (1/2) (1/2) ⟨2, 1/2, 7⟩).lat ∧
      (stepParticle ⟨0, 0, 1, 1⟩ 8 [] 10 (1/2) (1/2) ⟨2, 1/2, 7⟩).lat ≤ 1 ∧
      (stepParticle ⟨0, 0, 1, 1⟩ 8 [] 10 (1/2) (1/2) ⟨2, 1/2, 7⟩).age = 0 := by
  have hout : particleOut ⟨0, 0, 1, 1⟩ ⟨2, 1/2, 7⟩ := by
    unfold particleOut
    norm_num
  exact ⟨hout,
    stepParticle_respawns_out_of_bounds ⟨0, 0, 1, 1⟩ 8 [] 10 (1/2) (1/2) ⟨2, 1/2, 7⟩
      (by norm_num) (by norm_num) (by norm_num) (by norm_num) (by norm_num)
      (by norm_num) hout⟩

/-- A sample at the particle's own position with a 10^7 m/s northward
flow (direction 0), used to push a particle across the viewport edge in
one tick. -/
noncomputable def galePoint : CurrentWindPoint :=
  { latitude := 1/2, longitude := 1/2, windSpeed := 10000000, windDirection := 0 }

lemma distancesOf_gale :
    distancesOf [galePoint] (1/2) (1/2) = [(galePoint, 1e-6)] := by
  unfold distancesOf
  simp only [List.map_cons, List.map_nil, galePoint]
  rw [show ((1:ℝ)/2 - 1/2) ^ 2 + ((1:ℝ)/2 - 1/2) ^ 2 = 0 by ring, Real.sqrt_zero,
    zero_add]

lemma neighborsOf_gale :
    neighborsOf [galePoint] (1/2) (1/2) = [(galePoint, 1e-6)] := by
  unfold neighborsOf
  rw [distancesOf_gale,
    List.take_of_length_le (by rw [List.length_mergeSort]; norm_num)]
  exact List.perm_singleton.mp (List.mergeSort_perm _ _)

lemma sampleVector_gale :
    sampleVector [galePoint] (1/2) (1/2) 10 = ⟨0, 10000000, 10000000⟩ := by
  have hs : estimateWindAtHeight 10000000 10 10 (1/7) = 10000000 := by
    unfold estimateWindAtHeight
    rw [show (10:ℝ)/10 = 1 by norm_num, Real.one_rpow, mul_one]
  unfold sampleVector
  rw [if_neg (by norm_num), neighborsOf_gale, foldl_accStep]
  simp only [List.map_cons, List.map_nil, List.sum_cons, List.sum_nil, eastTerm,
    northTerm, speedTerm, wTerm, galePoint, zero_add, add_zero]
  rw [hs, show (0:ℝ) * Real.pi / 180 = 0 by ring, Real.sin_zero, Real.cos_zero]
  rw [if_neg (by norm_num)]
  simp only [WindVec.mk.injEq]
  norm_num

/-- C6 counterexample: a particle inside the unit viewport is advected
across the northern edge during the tick and is left out of bounds when
the tick ends (it will only be respawned when the next tick examines
it), refuting the claim that every particle is in bounds after every
tick. -/
theorem particle_out_of_bounds_after_tick :
    ¬ particleOut ⟨0, 0, 1, 1⟩ ⟨1/2, 1/2, 0⟩ ∧
      (stepParticle ⟨0, 0, 1, 1⟩ 8 [galePoint] 10 (1/2) (1/2) ⟨1/2, 1/2, 0⟩).lat > 1 ∧
      particleOut ⟨0, 0, 1, 1⟩
        (stepParticle ⟨0, 0, 1, 1⟩ 8 [galePoint] 10 (1/2) (1/2) ⟨1/2, 1/2, 0⟩) := by
  have hin : ¬ particleOut ⟨0, 0, 1, 1⟩ ⟨1/2, 1/2, 0⟩ := by
    unfold particleOut
    dsimp only
    norm_num
  have hlat :
      (stepParticle ⟨0, 0, 1, 1⟩ 8 [galePoint] 10 (1/2) (1/2) ⟨1/2, 1/2, 0⟩).lat > 1 := by
    unfold stepParticle
    rw [if_neg hin]
    dsimp only
    rw [sampleVector_gale]
    norm_num [clamp, min_def, max_def]
  exact ⟨hin, hlat, Or.inr (Or.inr (Or.inr hlat))⟩
